import Mathlib

/-!
Shallow embedding of the input-decoding core of the ESP32 virtual-pet
repository: the polling rotary encoder (`rotary_encoder.py`), the menu
navigator (`menu.py`), the stat gauges and the top-level UI state
dispatch of `main.py`, together with the piece of `minigame_c.py` that
touches the encoder's delta cap.

Modelling conventions:
* MicroPython integers are unbounded, so they are `Int`/`Nat` directly.
* `time.ticks_ms()` timestamps are `Int`; `time.ticks_diff(now, t)` is
  the wraparound-safe signed difference, modelled as `now - t`.
* Pin levels are `Nat` values `0`/`1` as returned by `Pin.value()`.
* The `_thread` lock only brackets the accesses shown in the source; the
  guarded critical sections are modelled as atomic state updates.
* Mutating methods become functions `State → ... → State`.
-/

namespace PetCore

/-- State of a polling `RotaryEncoder` (`rotary_encoder.py`, `__init__`):
the debounce configuration, the tracking fields and the two shared
accumulators (`_rotation_delta`, `_button_clicked`). -/
structure EncState where
  stepDebounceMs : Int
  buttonDebounceMs : Int
  lastEncoded : Nat
  lastButton : Nat
  lastStepTime : Int
  lastButtonTime : Int
  buttonPressTime : Option Int
  rotationDelta : Int
  buttonClicked : Bool
  deriving Repr, DecidableEq

/-- The 16-entry Gray-code transition table `_transition_table`,
indexed by `(last_state << 2) | current_state`. -/
def transitionTable : List Int :=
  [0, -1,  1,  0,
   1,  0,  0, -1,
  -1,  0,  0,  1,
   0,  1, -1,  0]

/-- `(pin_a.value() << 1) | pin_b.value()`: the 2-bit encoder code. -/
def encodePins (a b : Nat) : Nat := (a <<< 1) ||| b

/-- `RotaryEncoder._read_rotation`, with the two pin levels and the
current tick passed in.  A changed 2-bit code past the step-debounce
window is looked up in the transition table; a nonzero direction is
accumulated into `_rotation_delta` and refreshes `_last_step_time`;
`_last_encoded` is updated in either case. -/
def readRotation (s : EncState) (a b : Nat) (now : Int) : EncState :=
  let currentEncoded := encodePins a b
  if currentEncoded ≠ s.lastEncoded then
    if now - s.lastStepTime ≥ s.stepDebounceMs then
      let transition := (s.lastEncoded <<< 2) ||| currentEncoded
      let direction := transitionTable.getD transition 0
      if direction ≠ 0 then
        { s with rotationDelta := s.rotationDelta + direction,
                 lastStepTime := now,
                 lastEncoded := currentEncoded }
      else
        { s with lastEncoded := currentEncoded }
    else s
  else s

/-- `RotaryEncoder._read_button`, instrumented: the returned `Bool` is
`true` exactly when the statement `self._button_clicked = True` runs,
i.e. when this sample registers a click. -/
def readButtonF (s : EncState) (btn : Nat) (now : Int) : EncState × Bool :=
  if btn ≠ s.lastButton then
    if now - s.lastButtonTime ≥ s.buttonDebounceMs then
      let s := { s with lastButtonTime := now, lastButton := btn }
      if btn = 0 then
        ({ s with buttonPressTime := some now }, false)
      else
        match s.buttonPressTime with
        | some _ => ({ s with buttonClicked := true, buttonPressTime := none }, true)
        | none => ({ s with buttonPressTime := none }, false)
    else (s, false)
  else (s, false)

/-- `RotaryEncoder._read_button` as a plain state transformer. -/
def readButton (s : EncState) (btn : Nat) (now : Int) : EncState :=
  (readButtonF s btn now).1

/-- `RotaryEncoder.update`: one polling step over both sub-readers. -/
def update (s : EncState) (a b btn : Nat) (now : Int) : EncState :=
  readButton (readRotation s a b now) btn now

/-- The delta clamp inlined in `RotaryEncoder.read` (lines 105-109):
"Cap delta to ±1 to prevent rapid scrolling". -/
def capDelta (d : Int) : Int :=
  if d > 1 then 1 else if d < -1 then -1 else d

/-- `RotaryEncoder.read`: drain the two accumulators under the lock,
then clamp the drained delta to ±1.  Returns
`(delta, clicked, post-state)`. -/
def read (s : EncState) : Int × Bool × EncState :=
  let delta := s.rotationDelta
  let clicked := s.buttonClicked
  let s' := { s with rotationDelta := 0, buttonClicked := false }
  (capDelta delta, clicked, s')

/-- `RotaryEncoder.reset`: clear both accumulators and re-synchronize
the debounce tracking from the current pin levels and tick. -/
def reset (s : EncState) (a b btn : Nat) (now : Int) : EncState :=
  { s with rotationDelta := 0,
           buttonClicked := false,
           lastEncoded := encodePins a b,
           lastButton := btn,
           lastStepTime := now,
           lastButtonTime := now,
           buttonPressTime := none }

/-- Number of samples in a button-sample sequence `(level, tick)` that
register a click (run the `self._button_clicked = True` statement). -/
def clickFires : EncState → List (Nat × Int) → Nat
  | _, [] => 0
  | s, (b, t) :: rest =>
    let r := readButtonF s b t
    (if r.2 then 1 else 0) + clickFires r.1 rest

/-- The attributes ever assigned on a polling `RotaryEncoder` instance
(`rotary_encoder.py`: `__init__` and every method).  There is no
`_delta_cap`: the ±1 clamp in `read` is hard-coded. -/
def encoderFieldNames : List String :=
  ["pin_a", "pin_b", "button", "_step_debounce_ms", "_button_debounce_ms",
   "_last_encoded", "_last_button", "_last_step_time", "_last_button_time",
   "_button_press_time", "_transition_table", "_lock",
   "_rotation_delta", "_button_clicked"]

/-- `minigame_c.main_loop` line 29:
`original_cap = getattr(encoder, "_delta_cap", None)`.
On the polling encoder the attribute does not exist, so the default
`None` is returned. -/
def minigameOriginalCap : Option Int :=
  if "_delta_cap" ∈ encoderFieldNames then some 1 else none

/-- `minigame_c.main_loop` lines 29-34 applied to the polling encoder:
the guarded assignment `encoder._delta_cap = 1000` runs only when
`original_cap is not None`.  Since `getattr` returned `None`, it is
skipped and the encoder state is unchanged.  (Even if it ran, it would
only create a fresh attribute that `rotary_encoder.py`'s `read` never
consults, so no modelled field would change.) -/
def minigameLiftDeltaCap (s : EncState) : EncState :=
  match minigameOriginalCap with
  | some _ => s
  | none => s

/-! ### Menu navigator (`menu.py`) -/

/-- State of a `Menu` object.  `parent` is the non-owning back
reference, modelled as a heap index (see `Heap` below); items are left
generic. -/
structure Menu (α : Type) where
  title : String
  parent : Option Nat
  items : List α
  index : Int
  viewOffset : Int
  visibleCount : Int
  deriving Repr

/-- `Menu.__init__(title, items, parent=None, visible_count=3)`. -/
def Menu.init (title : String) (items : List α) (parent : Option Nat := none)
    (visibleCount : Int := 3) : Menu α :=
  { title := title, parent := parent, items := items,
    index := 0, viewOffset := 0, visibleCount := max 1 visibleCount }

/-- `Menu.ensure_visible`. -/
def Menu.ensureVisible (m : Menu α) : Menu α :=
  let count : Int := m.items.length
  if count = 0 then
    { m with index := 0, viewOffset := 0 }
  else
    let idx := if m.index < 0 then 0
               else if m.index ≥ count then count - 1
               else m.index
    let off := if idx < m.viewOffset then idx
               else if idx ≥ m.viewOffset + m.visibleCount then
                 idx - m.visibleCount + 1
               else m.viewOffset
    let maxOff := max 0 (count - m.visibleCount)
    let off := if off > maxOff then maxOff else off
    let off := if off < 0 then 0 else off
    { m with index := idx, viewOffset := off }

/-- `Menu.move(delta)`.  Python's `%` on a positive modulus agrees with
`Int.emod`, which is what `%` denotes here. -/
def Menu.move (m : Menu α) (delta : Int) : Menu α :=
  if m.items.isEmpty ∨ delta = 0 then m
  else
    let count : Int := m.items.length
    Menu.ensureVisible { m with index := (m.index + delta) % count }

/-- `Menu.set_items(items)`: replace the items, then `reset()`. -/
def Menu.setItems (m : Menu α) (items : List α) : Menu α :=
  { m with items := items, index := 0, viewOffset := 0 }

/-- `Menu.set_parent(parent)`. -/
def Menu.setParent (m : Menu α) (parent : Option Nat) : Menu α :=
  { m with parent := parent }

/-- `Menu.set_visible_count(count)`. -/
def Menu.setVisibleCount (m : Menu α) (count : Int) : Menu α :=
  Menu.ensureVisible { m with visibleCount := max 1 count }

/-- `Menu.selected()`: the item at the current index, `None` if empty.
(`List.get?` plays the part of the in-range Python indexing.) -/
def Menu.selected (m : Menu α) : Option α :=
  if m.items.isEmpty then none else m.items.get? m.index.toNat

/-- `Menu.reset()`. -/
def Menu.reset (m : Menu α) : Menu α :=
  { m with index := 0, viewOffset := 0 }

/-- The four mutators of the claimed viewport invariant. -/
inductive MenuMut (α : Type) where
  | move (delta : Int)
  | setItems (items : List α)
  | setVisibleCount (count : Int)
  | reset

/-- Apply one mutator. -/
def Menu.applyMut (m : Menu α) : MenuMut α → Menu α
  | .move d => m.move d
  | .setItems xs => m.setItems xs
  | .setVisibleCount c => m.setVisibleCount c
  | .reset => m.reset

/-- A whole call sequence of mutators, first call first. -/
def Menu.applyMuts (m : Menu α) (ms : List (MenuMut α)) : Menu α :=
  ms.foldl Menu.applyMut m

/-- The viewport invariant claimed for `Menu`: the selection lies in
the visible window and the offset is clamped to its legal range. -/
def Menu.Inv (m : Menu α) : Prop :=
  m.viewOffset ≤ m.index ∧ m.index < m.viewOffset + m.visibleCount ∧
  0 ≤ m.viewOffset ∧ m.viewOffset ≤ max 0 ((m.items.length : Int) - m.visibleCount)

instance (m : Menu α) : Decidable m.Inv := by
  unfold Menu.Inv; infer_instance

/-! ### Stat gauges (`main.py` lines 339-388) -/

def STAT_KEYS : List String := ["Energy", "Hunger", "Health"]
def STAT_MIN : Int := 0
def STAT_MAX : Int := 100

/-- The `stats_values` dict, as its total get-with-default-0 view
(`stats_values.get(name, 0)`). -/
def Stats : Type := String → Int

/-- The initial `stats_values` literal. -/
def initialStats : Stats :=
  fun k => if k = "Energy" then 80 else if k = "Hunger" then 65
           else if k = "Health" then 75 else 0

/-- `clamp(value, low, high)`. -/
def clamp (value low high : Int) : Int :=
  if value < low then low else if value > high then high else value

/-- `clamp_stat(value)`. -/
def clampStat (value : Int) : Int := clamp value STAT_MIN STAT_MAX

/-- `set_stat(name, value)`. -/
def setStat (s : Stats) (name : String) (value : Int) : Stats :=
  fun k => if k = name then clampStat value else s k

/-- `adjust_stat(name, delta)`. -/
def adjustStat (s : Stats) (name : String) (delta : Int) : Stats :=
  fun k => if k = name then clampStat (s name + delta) else s k

/-- `decay_stats(amount)`: clamped decrement of every key in
`STAT_KEYS`, in order. -/
def decayStats (s : Stats) (amount : Int) : Stats :=
  STAT_KEYS.foldl
    (fun acc key => fun k => if k = key then clampStat (acc key - amount) else acc k)
    s

/-- `n` periodic decay ticks. -/
def decayRepeat : Nat → Stats → Int → Stats
  | 0, s, _ => s
  | n + 1, s, amount => decayRepeat n (decayStats s amount) amount

/-- All gauges within `[0, 100]`. -/
def StatsInRange (s : Stats) : Prop :=
  ∀ k, STAT_MIN ≤ s k ∧ s k ≤ STAT_MAX

/-! ### Application state machine (`main.py`, `main()` loop body)

The loop-body state dispatch of `main()` (lines 869-988) is modelled as
a step function over the loop's mutable variables.  Menus are Python
objects shared by reference (the stack holds references, submenu items
point at menus, `set_parent` mutates in place), so menus live in a heap
indexed by `Nat` and the stack holds indices.  Python appends/pops at
the end of `menu_stack`; here the top of stack is the head of the list.
Out-of-model side effects (rendering, prints, `handle_play_action` and
action handlers mutating the stat dict modelled above, `toggle_fn`,
`change_mood`, the minigame's own screen loop) touch none of the
modelled fields. -/

/-- The `STATE_*` string constants, as a closed enumeration. -/
inductive UiState where
  | idle | menu | stats | message | minigame
  deriving Repr, DecidableEq

def MENU_IDLE_TIMEOUT_MS : Int := 6000
def ACTION_VIEW_DURATION_MS : Int := 3000

/-- A menu-item dict: `item.get("type")` plus the payload keys the
dispatch reads.  `none` models an absent key (`dict.get` default). -/
structure MenuItem where
  kind : Option String
  submenuRef : Option Nat
  targetState : Option UiState
  module : Option Nat
  handler : Bool
  message : Option String
  label : Option String
  subtitle : Option String
  deriving Repr

/-- `item.get("message") or item.get("label", "Done")` (Python `or`:
`None` and `""` are falsy). -/
def itemMessageText (it : MenuItem) : String :=
  match it.message with
  | some m => if m = "" then it.label.getD "Done" else m
  | none => it.label.getD "Done"

/-- The heap of `Menu` objects; `mainMenuRef` is `main_menu`. -/
def Heap : Type := Nat → Menu MenuItem

def mainMenuRef : Nat := 0

def updateHeap (h : Heap) (ref : Nat) (m : Menu MenuItem) : Heap :=
  fun i => if i = ref then m else h i

/-- The loop-local mutable variables of `main()` that the state
dispatch reads and writes. -/
structure AppState where
  currentState : UiState
  stateEnteredAt : Int
  menuLastInteraction : Int
  menuStack : List Nat
  menuAfterMessage : List Nat
  messageText : String
  messageSubtext : Option String
  messageReturnState : UiState
  pendingMinigame : Option Nat
  minigameReturnMenuStack : List Nat
  deriving Repr

/-- Lines 869-883: a pending minigame runs to completion
(`run_minigame`, whose display name is `gameNameOf module`), the stat
side effect `handle_play_action()` fires (out of the modelled fields),
and the machine moves to Message with the preserved menu stack. -/
def stepMinigame (gameNameOf : Nat → String) (h : Heap) (app : AppState)
    (now : Int) : Heap × AppState :=
  match app.pendingMinigame with
  | none => (h, app)
  | some module =>
    let menuPreserved := app.minigameReturnMenuStack
    let stack := menuPreserved
    (h, { app with
      pendingMinigame := none,
      menuStack := stack,
      menuAfterMessage := stack,
      messageText := gameNameOf module,
      messageSubtext := some "Great game!",
      messageReturnState := if stack ≠ [] then UiState.menu else UiState.idle,
      currentState := UiState.message,
      stateEnteredAt := now,
      menuLastInteraction := now })

/-- Lines 885-893: Idle; a click opens the root menu. -/
def stepIdle (h : Heap) (app : AppState) (now : Int) (clicked : Bool) :
    Heap × AppState :=
  if clicked then
    let h := updateHeap h mainMenuRef ((h mainMenuRef).reset.ensureVisible)
    (h, { app with
      menuStack := [mainMenuRef],
      currentState := UiState.menu,
      stateEnteredAt := now,
      menuLastInteraction := now })
  else (h, app)

/-- Lines 905-951: the `if clicked:` item dispatch of the Menu state.
`cur` is the reference to `menu_stack[-1]`. -/
def menuClickDispatch (h : Heap) (app : AppState) (now : Int)
    (stack : List Nat) (cur : Nat) : Heap × AppState :=
  let app := { app with menuLastInteraction := now, menuStack := stack }
  match (h cur).selected with
  | none => (h, app)
  | some item =>
    if item.kind = some "submenu" then
      match item.submenuRef with
      | some sub =>
        let h := updateHeap h sub (((h sub).reset).setParent (some cur))
        (h, { app with menuStack := sub :: stack })
      | none => (h, app)
    else if item.kind = some "back" then
      if stack.length > 1 then
        let rest := stack.tail
        match rest with
        | top :: _ =>
          (updateHeap h top ((h top).ensureVisible), { app with menuStack := rest })
        | [] => (h, { app with menuStack := rest })
      else
        (h, { app with
          menuStack := [],
          currentState := UiState.idle,
          stateEnteredAt := now })
    else if item.kind = some "state" then
      let target := item.targetState.getD UiState.idle
      (h, { app with
        currentState := target,
        stateEnteredAt := now,
        menuLastInteraction :=
          if target = UiState.stats then now else app.menuLastInteraction })
    else if item.kind = some "toggle" then
      (h, app)
    else if item.kind = some "minigame" then
      match item.module with
      | some module =>
        (h, { app with
          pendingMinigame := some module,
          minigameReturnMenuStack := stack,
          currentState := UiState.minigame,
          stateEnteredAt := now })
      | none => (h, app)
    else
      (h, { app with
        messageText := itemMessageText item,
        messageSubtext := item.subtitle,
        menuAfterMessage := stack,
        messageReturnState := if stack ≠ [] then UiState.menu else UiState.idle,
        currentState := UiState.message,
        stateEnteredAt := now })

/-- Lines 895-955: the Menu state.  An empty stack is refilled with the
reset root menu; a nonzero delta moves the current menu; a click
dispatches on the selected item; finally the idle timeout fires if the
machine is still in Menu and no interaction refreshed the timer. -/
def stepMenu (h : Heap) (app : AppState) (now : Int) (delta : Int)
    (clicked : Bool) : Heap × AppState :=
  let hs :=
    if app.menuStack = [] then
      (updateHeap h mainMenuRef ((h mainMenuRef).reset.ensureVisible),
       [mainMenuRef])
    else (h, app.menuStack)
  let h := hs.1
  let stack := hs.2
  match stack with
  | [] => (h, app)
  | cur :: _ =>
    let h := if delta ≠ 0 then updateHeap h cur ((h cur).move delta) else h
    let app :=
      if delta ≠ 0 then { app with menuLastInteraction := now, menuStack := stack }
      else { app with menuStack := stack }
    let ha := if clicked then menuClickDispatch h app now stack cur else (h, app)
    let h := ha.1
    let app := ha.2
    if app.currentState = UiState.menu ∧
        now - app.menuLastInteraction ≥ MENU_IDLE_TIMEOUT_MS then
      (h, { app with
        menuStack := [],
        currentState := UiState.idle,
        stateEnteredAt := now })
    else (h, app)

/-- Lines 957-971: the Stats state. -/
def stepStats (h : Heap) (app : AppState) (now : Int) (delta : Int)
    (clicked : Bool) : Heap × AppState :=
  let app :=
    if clicked then
      if app.menuStack ≠ [] then
        { app with
          currentState := UiState.menu,
          menuLastInteraction := now,
          stateEnteredAt := now }
      else
        { app with currentState := UiState.idle, stateEnteredAt := now }
    else if delta ≠ 0 then { app with menuLastInteraction := now }
    else app
  if now - app.menuLastInteraction ≥ MENU_IDLE_TIMEOUT_MS then
    (h, { app with
      currentState := UiState.idle,
      menuStack := [],
      stateEnteredAt := now })
  else (h, app)

/-- Lines 973-988: the Message state. -/
def stepMessage (h : Heap) (app : AppState) (now : Int) (clicked : Bool) :
    Heap × AppState :=
  let expired := now - app.stateEnteredAt ≥ ACTION_VIEW_DURATION_MS
  if clicked ∨ expired then
    let app :=
      if app.messageReturnState = UiState.menu ∧ app.menuAfterMessage ≠ [] then
        { app with
          menuStack := app.menuAfterMessage,
          currentState := UiState.menu,
          menuLastInteraction := now }
      else
        { app with menuStack := [], currentState := UiState.idle }
    (h, { app with
      stateEnteredAt := now,
      messageText := "",
      messageSubtext := none,
      menuAfterMessage := [] })
  else (h, app)

/-- One pass of the state dispatch of the `main()` loop body
(lines 869-988), with the freshly drained `(delta, clicked)` pair. -/
def mainStep (gameNameOf : Nat → String) (h : Heap) (app : AppState)
    (now : Int) (delta : Int) (clicked : Bool) : Heap × AppState :=
  match app.currentState with
  | UiState.minigame => stepMinigame gameNameOf h app now
  | UiState.idle => stepIdle h app now clicked
  | UiState.menu => stepMenu h app now delta clicked
  | UiState.stats => stepStats h app now delta clicked
  | UiState.message => stepMessage h app now clicked

/-! ### Concrete fixtures for counterexamples and witnesses -/

/-- A freshly constructed polling encoder: default debounce values,
pins idle at code `00`, button released (pull-up high), at tick 0. -/
def encBase : EncState :=
  { stepDebounceMs := 5, buttonDebounceMs := 35, lastEncoded := 0,
    lastButton := 1, lastStepTime := 0, lastButtonTime := 0,
    buttonPressTime := none, rotationDelta := 0, buttonClicked := false }

/-- An encoder mid-spin: 1000 accumulated steps pending. -/
def encBurst : EncState := { encBase with rotationDelta := 1000 }

/-- `getattr(module, "GAME_NAME", "Minigame")` for the fixtures. -/
def gameName0 : Nat → String := fun _ => "Spin"

/-- A tiny heap of item-less menus. -/
def heap0 : Heap := fun _ => Menu.init "Main" ([] : List MenuItem)

/-- A Message state recorded from menu depth 2 (stack `[3, 0]`). -/
def appMsg : AppState :=
  { currentState := UiState.message, stateEnteredAt := 0,
    menuLastInteraction := 0, menuStack := [], menuAfterMessage := [3, 0],
    messageText := "Fed", messageSubtext := none,
    messageReturnState := UiState.menu, pendingMinigame := none,
    minigameReturnMenuStack := [] }

/-- A Menu state at depth 2, last interaction at tick 0. -/
def appMenu : AppState :=
  { currentState := UiState.menu, stateEnteredAt := 0,
    menuLastInteraction := 0, menuStack := [2, 0], menuAfterMessage := [],
    messageText := "", messageSubtext := none,
    messageReturnState := UiState.idle, pendingMinigame := none,
    minigameReturnMenuStack := [] }

/-- A Stats state, last interaction at tick 0. -/
def appStats : AppState := { appMenu with currentState := UiState.stats }

/-! ## Theorems -/

/-- **C1.** For every state of the encoder event channel, `read()`
returns the accumulated delta after capping together with the click
flag, zeroes both accumulators, and an immediate second `read()` with
no intervening `update()` returns `(0, false)`. -/
theorem read_drains_exactly_once (s : EncState) :
    (read s).1 = capDelta s.rotationDelta ∧
    (read s).2.1 = s.buttonClicked ∧
    (read s).2.2.rotationDelta = 0 ∧
    (read s).2.2.buttonClicked = false ∧
    (read (read s).2.2).1 = 0 ∧
    (read (read s).2.2).2.1 = false :=
  ⟨rfl, rfl, rfl, rfl, rfl, rfl⟩

/-- **C10.** `read()` mutates only the two shared accumulators: the
stored pin code, last button level, both debounce timestamps, the
pending press timestamp and the debounce configuration are untouched
(and `reset()` is the operation that re-synchronizes them). -/
theorem read_frame_condition (s : EncState) (a b btn : Nat) (now : Int) :
    (read s).2.2.lastEncoded = s.lastEncoded ∧
    (read s).2.2.lastButton = s.lastButton ∧
    (read s).2.2.lastStepTime = s.lastStepTime ∧
    (read s).2.2.lastButtonTime = s.lastButtonTime ∧
    (read s).2.2.buttonPressTime = s.buttonPressTime ∧
    (read s).2.2.stepDebounceMs = s.stepDebounceMs ∧
    (read s).2.2.buttonDebounceMs = s.buttonDebounceMs ∧
    (reset s a b btn now).lastEncoded = encodePins a b ∧
    (reset s a b btn now).lastButton = btn ∧
    (reset s a b btn now).lastStepTime = now ∧
    (reset s a b btn now).lastButtonTime = now ∧
    (reset s a b btn now).buttonPressTime = none :=
  ⟨rfl, rfl, rfl, rfl, rfl, rfl, rfl, rfl, rfl, rfl, rfl, rfl⟩

/-- **C2, counterexample.** From code `00` at tick 0, sampling code
`11` at tick 100 (an invalid two-bit jump, direction 0) with the
debounce window long elapsed: the stored code is updated to `11`, but
the debounce timestamp stays 0 instead of moving to 100, contradicting
the claim that both fields update on rejected changed samples. -/
theorem rejected_sample_keeps_timestamp :
    encodePins 1 1 ≠ encBase.lastEncoded ∧
    (100 : Int) - encBase.lastStepTime ≥ encBase.stepDebounceMs ∧
    transitionTable.getD ((encBase.lastEncoded <<< 2) ||| encodePins 1 1) 0 = 0 ∧
    (readRotation encBase 1 1 100).lastEncoded = encodePins 1 1 ∧
    (readRotation encBase 1 1 100).lastStepTime = 0 ∧
    encBase.lastStepTime = 0 ∧ (0 : Int) ≠ 100 := by
  decide

/-- **C2, amended.** On a changed sample past the step-debounce window
the stored pin code always updates to the new code, while the debounce
timestamp updates only when the looked-up direction is nonzero (an
accepted transition); a rejected invalid jump leaves it unchanged. -/
theorem changed_sample_updates (s : EncState) (a b : Nat) (now : Int)
    (hchg : encodePins a b ≠ s.lastEncoded)
    (helapsed : now - s.lastStepTime ≥ s.stepDebounceMs) :
    (readRotation s a b now).lastEncoded = encodePins a b ∧
    (readRotation s a b now).lastStepTime =
      (if transitionTable.getD ((s.lastEncoded <<< 2) ||| encodePins a b) 0 ≠ 0
       then now else s.lastStepTime) := by
  unfold readRotation
  rw [if_pos hchg, if_pos helapsed]
  dsimp only
  split_ifs with hdir
  · exact ⟨rfl, rfl⟩
  · exact ⟨rfl, rfl⟩

/-- Witness for `changed_sample_updates` at the concrete rejected
sample of the counterexample state. -/
theorem changed_sample_updates_witness :
    (readRotation encBase 1 1 100).lastEncoded = encodePins 1 1 ∧
    (readRotation encBase 1 1 100).lastStepTime =
      (if transitionTable.getD ((encBase.lastEncoded <<< 2) ||| encodePins 1 1) 0 ≠ 0
       then (100 : Int) else encBase.lastStepTime) :=
  changed_sample_updates encBase 1 1 100 (by decide) (by decide)

/-- **C3, counterexample.** The polling encoder the main program
constructs exposes no `_delta_cap`; `minigame_c`'s cap lift is a no-op
on it, and a read of a 1000-step burst during the game still returns 1,
so reads during the game never exceed magnitude 1. -/
theorem minigame_cap_lift_is_noop :
    minigameOriginalCap = none ∧
    minigameLiftDeltaCap encBurst = encBurst ∧
    encBurst.rotationDelta = 1000 ∧
    (read (minigameLiftDeltaCap encBurst)).1 = 1 := by
  decide

/-- **C3, amended.** In the polling encoder (`rotary_encoder.py`) that
`main.py` passes to the minigames, the ±1 delta cap of `read()` is
hard-coded, not caller-configurable: `minigame_c`'s attempt to raise
`_delta_cap` leaves the encoder unchanged (the attribute exists only on
the hardware-encoder wrappers), and every read during the game returns
a delta of magnitude at most 1. -/
theorem polling_cap_fixed (s : EncState) :
    minigameLiftDeltaCap s = s ∧
    -1 ≤ (read (minigameLiftDeltaCap s)).1 ∧
    (read (minigameLiftDeltaCap s)).1 ≤ 1 := by
  refine ⟨rfl, ?_, ?_⟩ <;>
    · show _
      simp only [minigameLiftDeltaCap, minigameOriginalCap, read, capDelta]
      split_ifs <;> omega

/-- A single button sample registers a click exactly when it is a
changed level that survives the debounce window, is a release
(nonzero), and a press timestamp is pending. -/
theorem readButtonF_fires_iff (s : EncState) (btn : Nat) (now : Int) :
    (readButtonF s btn now).2 = true ↔
      (btn ≠ s.lastButton ∧ now - s.lastButtonTime ≥ s.buttonDebounceMs ∧
       btn ≠ 0 ∧ s.buttonPressTime.isSome) := by
  unfold readButtonF
  split_ifs with hchg hdeb hpress
  · simp [hchg, hdeb, hpress]
  · cases hpt : s.buttonPressTime <;> simp [hchg, hdeb, hpress, hpt]
  · simp [hdeb]
  · simp [hchg]

/-- **C4.** Starting from a released button with no pending press, a
press-then-release pair in which both edges survive the button-debounce
window registers exactly one click; the press alone registers zero, and
a press followed by a release inside the debounce window also registers
zero. -/
theorem press_release_single_click (s : EncState) (t1 t2 t3 : Int)
    (hUp : s.lastButton = 1)
    (_hNoPress : s.buttonPressTime = none)
    (hPress : t1 - s.lastButtonTime ≥ s.buttonDebounceMs)
    (hRelease : t2 - t1 ≥ s.buttonDebounceMs)
    (hEarly : t3 - t1 < s.buttonDebounceMs) :
    clickFires s [(0, t1), (1, t2)] = 1 ∧
    clickFires s [(0, t1)] = 0 ∧
    clickFires s [(0, t1), (1, t3)] = 0 := by
  have h1 : readButtonF s 0 t1 = ({ s with lastButtonTime := t1, lastButton := 0, buttonPressTime := some t1 }, false) := by
    unfold readButtonF
    rw [hUp, if_pos (by decide : (0 : Nat) ≠ 1), if_pos hPress, if_pos rfl]
  have h2 : readButtonF { s with lastButtonTime := t1, lastButton := 0, buttonPressTime := some t1 } 1 t2 = ({ s with lastButtonTime := t2, lastButton := 1, buttonPressTime := none, buttonClicked := true }, true) := by
    unfold readButtonF
    rw [if_pos (by decide : (1 : Nat) ≠ 0)]
    rw [if_pos (by simpa using hRelease)]
    rw [if_neg (by decide : ¬ (1 : Nat) = 0)]
  have h3 : readButtonF { s with lastButtonTime := t1, lastButton := 0, buttonPressTime := some t1 } 1 t3 = ({ s with lastButtonTime := t1, lastButton := 0, buttonPressTime := some t1 }, false) := by
    unfold readButtonF
    rw [if_pos (by decide : (1 : Nat) ≠ 0)]
    rw [if_neg (by simpa using hEarly)]
  refine ⟨?_, ?_, ?_⟩ <;>
    simp [clickFires, h1, h2, h3]

/-- Witness for `press_release_single_click`: the fresh encoder, press
at tick 100, qualifying release at tick 200, early release at 110. -/
theorem press_release_single_click_witness :
    clickFires encBase [(0, 100), (1, 200)] = 1 ∧
    clickFires encBase [(0, 100)] = 0 ∧
    clickFires encBase [(0, 100), (1, 110)] = 0 :=
  press_release_single_click encBase 100 200 110 rfl rfl
    (by decide) (by decide) (by decide)

/-- `ensure_visible` never moves a selection that is already in range. -/
theorem ensureVisible_index_eq {α : Type} (m : Menu α)
    (h0 : 0 ≤ m.index) (h1 : m.index < (m.items.length : Int)) :
    m.ensureVisible.index = m.index := by
  unfold Menu.ensureVisible
  dsimp only
  split_ifs <;> first | rfl | omega

/-- **C5.** `Menu.move(delta)` is a no-op on an empty menu or zero
delta; otherwise the selection advances by `delta` modulo the item
count, so moving forward from the last item selects the first and
moving backward from the first selects the last. -/
theorem menu_move_wraparound {α : Type} (m : Menu α) (delta : Int) :
    ((m.items = [] ∨ delta = 0) → m.move delta = m) ∧
    (m.items ≠ [] → delta ≠ 0 →
      (m.move delta).index = (m.index + delta) % (m.items.length : Int)) ∧
    (m.items ≠ [] → m.index = (m.items.length : Int) - 1 →
      (m.move 1).index = 0) ∧
    (m.items ≠ [] → m.index = 0 →
      (m.move (-1)).index = (m.items.length : Int) - 1) := by
  have hmove : ∀ d : Int, m.items ≠ [] → d ≠ 0 →
      (m.move d).index = (m.index + d) % (m.items.length : Int) := by
    intro d hne hd
    have hempty : m.items.isEmpty = false := by
      simpa [List.isEmpty_iff] using hne
    have hlen : 0 < (m.items.length : Int) := by
      have := List.length_pos.2 hne
      exact_mod_cast this
    unfold Menu.move
    rw [if_neg (by simp [hempty, hd])]
    dsimp only
    rw [ensureVisible_index_eq]
    · exact Int.emod_nonneg _ (by omega)
    · simpa using Int.emod_lt_of_pos _ hlen
  refine ⟨?_, hmove delta, ?_, ?_⟩
  · rintro (hempty | hzero)
    · unfold Menu.move
      rw [if_pos (Or.inl (by simp [hempty]))]
    · unfold Menu.move
      rw [if_pos (Or.inr hzero)]
  · intro hne hlast
    rw [hmove 1 hne (by decide), hlast]
    simp
  · intro hne hfirst
    have hlen : 0 < (m.items.length : Int) := by
      have := List.length_pos.2 hne
      exact_mod_cast this
    rw [hmove (-1) hne (by decide), hfirst]
    have : ((m.items.length : Int) - 1) % (m.items.length : Int) =
        (m.items.length : Int) - 1 :=
      Int.emod_eq_of_lt (by omega) (by omega)
    calc (0 + -1) % (m.items.length : Int)
        = (-1 + (m.items.length : Int) * 1) % (m.items.length : Int) := by
          rw [Int.add_mul_emod_self_left]; ring_nf
      _ = (m.items.length : Int) - 1 := by
          rw [show (-1 + (m.items.length : Int) * 1) = (m.items.length : Int) - 1 by ring]
          exact this

/-- Witness for `menu_move_wraparound` on a three-item menu: moving
forward from the last item lands on the first, backward from the first
lands on the last, zero delta is a no-op. -/
theorem menu_move_wraparound_witness :
    ((Menu.init "w" [10, 20, 30]).move 0 = Menu.init "w" [10, 20, 30]) ∧
    (((Menu.init "w" [10, 20, 30]).move (-1)).index = 2) ∧
    ((({ Menu.init "w" [10, 20, 30] with index := 2 } : Menu Nat).move 1).index = 0) := by
  refine ⟨?_, ?_, ?_⟩
  · exact (menu_move_wraparound (Menu.init "w" [10, 20, 30]) 0).1 (Or.inr rfl)
  · have := (menu_move_wraparound (Menu.init "w" [10, 20, 30]) (-1)).2.2.2
      (by decide) (by decide)
    simpa using this
  · have := (menu_move_wraparound
      ({ Menu.init "w" [10, 20, 30] with index := 2 } : Menu Nat) 1).2.2.1
      (by decide) (by decide)
    simpa using this

/-- `ensure_visible` establishes the viewport invariant from any
starting index/offset, as long as at least one row is visible. -/
theorem ensureVisible_establishes_inv {α : Type} (m : Menu α)
    (hvc : 1 ≤ m.visibleCount) :
    m.ensureVisible.Inv := by
  unfold Menu.ensureVisible Menu.Inv
  dsimp only
  split_ifs <;> dsimp only <;> refine ⟨?_, ?_, ?_, ?_⟩ <;> omega

/-- `ensure_visible` leaves the item list and row count alone. -/
theorem ensureVisible_frame {α : Type} (m : Menu α) :
    m.ensureVisible.items = m.items ∧
    m.ensureVisible.visibleCount = m.visibleCount := by
  unfold Menu.ensureVisible
  dsimp only
  split_ifs <;> exact ⟨rfl, rfl⟩

/-- One mutator keeps at least one visible row and re-establishes the
viewport invariant. -/
theorem applyMut_inv {α : Type} (m : Menu α) (mu : MenuMut α)
    (hvc : 1 ≤ m.visibleCount) (hInv : m.Inv) :
    (m.applyMut mu).Inv ∧ 1 ≤ (m.applyMut mu).visibleCount := by
  cases mu with
  | move d =>
    by_cases hstop : m.items.isEmpty = true ∨ d = 0
    · have : m.move d = m := by
        unfold Menu.move
        rw [if_pos (by simpa using hstop)]
      simpa [Menu.applyMut, this] using ⟨hInv, hvc⟩
    · have hmv : m.move d =
          Menu.ensureVisible { m with index := (m.index + d) % (m.items.length : Int) } := by
        unfold Menu.move
        rw [if_neg (by simpa using hstop)]
      constructor
      · rw [Menu.applyMut, hmv]
        exact ensureVisible_establishes_inv _ (by simpa using hvc)
      · rw [Menu.applyMut, hmv, (ensureVisible_frame _).2]
        simpa using hvc
  | setItems xs =>
    refine ⟨?_, by simpa [Menu.applyMut, Menu.setItems] using hvc⟩
    simp only [Menu.applyMut, Menu.setItems, Menu.Inv]
    refine ⟨le_refl _, by omega, le_refl _, le_max_left _ _⟩
  | setVisibleCount c =>
    have h1 : (1 : Int) ≤ max 1 c := le_max_left _ _
    constructor
    · exact ensureVisible_establishes_inv _ (by simp [Menu.setVisibleCount])
    · show (Menu.ensureVisible _).visibleCount ≥ 1
      rw [(ensureVisible_frame _).2]
      simp
  | reset =>
    refine ⟨?_, by simpa [Menu.applyMut, Menu.reset] using hvc⟩
    simp only [Menu.applyMut, Menu.reset, Menu.Inv]
    refine ⟨le_refl _, by omega, le_refl _, le_max_left _ _⟩

/-- **C6.** Starting from a freshly constructed menu, every sequence of
`move` / `set_items` / `set_visible_count` / `reset` calls leaves the
viewport invariant standing: the selection lies inside the visible
window and the offset inside its legal range. -/
theorem menu_viewport_invariant {α : Type} (title : String) (items : List α)
    (parent : Option Nat) (vc : Int) (ms : List (MenuMut α)) :
    ((Menu.init title items parent vc).applyMuts ms).Inv := by
  suffices h : ∀ (m : Menu α), 1 ≤ m.visibleCount → m.Inv →
      (m.applyMuts ms).Inv ∧ 1 ≤ (m.applyMuts ms).visibleCount by
    refine (h _ (le_max_left _ _) ?_).1
    simp only [Menu.init, Menu.Inv]
    exact ⟨le_refl _, by have := le_max_left (1 : Int) vc; omega,
      le_refl _, le_max_left _ _⟩
  induction ms with
  | nil => intro m hvc hInv; exact ⟨hInv, hvc⟩
  | cons mu rest ih =>
    intro m hvc hInv
    have step := applyMut_inv m mu hvc hInv
    simpa [Menu.applyMuts, List.foldl] using ih (m.applyMut mu) step.2 step.1

/-- **C7.** In a Message state recorded from a Menu context (return
state Menu, nonempty recorded stack), a click arriving before the
3-second view duration elapses returns to Menu with exactly the
recorded stack. -/
theorem message_click_restores_stack (gameNameOf : Nat → String) (h : Heap)
    (app : AppState) (now delta : Int)
    (hstate : app.currentState = UiState.message)
    (hret : app.messageReturnState = UiState.menu)
    (hstk : app.menuAfterMessage ≠ [])
    (_htime : now - app.stateEnteredAt < ACTION_VIEW_DURATION_MS) :
    (mainStep gameNameOf h app now delta true).2.currentState = UiState.menu ∧
    (mainStep gameNameOf h app now delta true).2.menuStack = app.menuAfterMessage := by
  unfold mainStep
  rw [hstate]
  unfold stepMessage
  rw [if_pos (Or.inl rfl), if_pos ⟨hret, hstk⟩]
  exact ⟨rfl, rfl⟩

/-- Witness for `message_click_restores_stack`: the depth-2 Message
fixture, clicked at tick 10, well inside the 3000 ms window. -/
theorem message_click_restores_stack_witness :
    (mainStep gameName0 heap0 appMsg 10 0 true).2.currentState = UiState.menu ∧
    (mainStep gameName0 heap0 appMsg 10 0 true).2.menuStack = appMsg.menuAfterMessage :=
  message_click_restores_stack gameName0 heap0 appMsg 10 0 rfl rfl
    (by decide) (by decide)

/-- **C8.** With no directional or click input this iteration, the Menu
and Stats states return to Idle with an emptied stack exactly when the
time since the last interaction has reached the 6-second threshold, and
stay put (state and stack untouched) when it has not. -/
theorem idle_timeout_threshold (gameNameOf : Nat → String) (h : Heap)
    (app : AppState) (now : Int)
    (hstack : app.menuStack ≠ []) :
    (app.currentState = UiState.menu →
      (now - app.menuLastInteraction ≥ MENU_IDLE_TIMEOUT_MS →
        (mainStep gameNameOf h app now 0 false).2.currentState = UiState.idle ∧
        (mainStep gameNameOf h app now 0 false).2.menuStack = []) ∧
      (now - app.menuLastInteraction < MENU_IDLE_TIMEOUT_MS →
        (mainStep gameNameOf h app now 0 false).2.currentState = UiState.menu ∧
        (mainStep gameNameOf h app now 0 false).2.menuStack = app.menuStack)) ∧
    (app.currentState = UiState.stats →
      (now - app.menuLastInteraction ≥ MENU_IDLE_TIMEOUT_MS →
        (mainStep gameNameOf h app now 0 false).2.currentState = UiState.idle ∧
        (mainStep gameNameOf h app now 0 false).2.menuStack = []) ∧
      (now - app.menuLastInteraction < MENU_IDLE_TIMEOUT_MS →
        (mainStep gameNameOf h app now 0 false).2.currentState = UiState.stats ∧
        (mainStep gameNameOf h app now 0 false).2.menuStack = app.menuStack)) := by
  constructor
  · intro hstate
    have hmenu : mainStep gameNameOf h app now 0 false = stepMenu h app now 0 false := by
      unfold mainStep; rw [hstate]
    obtain ⟨cur, rest, hms⟩ : ∃ cur rest, app.menuStack = cur :: rest := by
      cases hcs : app.menuStack with
      | nil => exact absurd hcs hstack
      | cons cur rest => exact ⟨cur, rest, rfl⟩
    have hsm : stepMenu h app now 0 false =
        (if app.currentState = UiState.menu ∧
            now - app.menuLastInteraction ≥ MENU_IDLE_TIMEOUT_MS then
          (h, { app with menuStack := [], currentState := UiState.idle,
                         stateEnteredAt := now })
        else (h, { app with menuStack := cur :: rest })) := by
      unfold stepMenu
      dsimp only
      rw [if_neg (by simp [hms]), hms]
      dsimp only
      simp only [if_neg (show ¬((0 : Int) ≠ 0) by decide),
        if_neg (show ¬(false = true) by decide)]
    have heta : ({ app with menuStack := cur :: rest } : AppState) = app := by
      rw [← hms]
    constructor
    · intro htime
      rw [hmenu, hsm, if_pos ⟨hstate, htime⟩]
      exact ⟨rfl, rfl⟩
    · intro htime
      rw [hmenu, hsm, if_neg (by intro hc; omega), heta]
      exact ⟨hstate, rfl⟩
  · intro hstate
    have hstats : mainStep gameNameOf h app now 0 false = stepStats h app now 0 false := by
      unfold mainStep; rw [hstate]
    have hss : stepStats h app now 0 false =
        (if now - app.menuLastInteraction ≥ MENU_IDLE_TIMEOUT_MS then
          (h, { app with currentState := UiState.idle, menuStack := [],
                         stateEnteredAt := now })
        else (h, app)) := by
      unfold stepStats
      rw [if_neg Bool.false_ne_true, if_neg (by decide : ¬ (0 : Int) ≠ 0)]
    constructor
    · intro htime
      rw [hstats, hss, if_pos htime]
      exact ⟨rfl, rfl⟩
    · intro htime
      rw [hstats, hss, if_neg (by omega)]
      exact ⟨hstate, rfl⟩

/-- Witness for `idle_timeout_threshold`: the Menu and Stats fixtures
(last interaction at tick 0), probed at ticks 7000 (fires) and
10 (does not fire). -/
theorem idle_timeout_threshold_witness :
    ((mainStep gameName0 heap0 appMenu 7000 0 false).2.currentState = UiState.idle ∧
     (mainStep gameName0 heap0 appMenu 7000 0 false).2.menuStack = []) ∧
    ((mainStep gameName0 heap0 appMenu 10 0 false).2.currentState = UiState.menu ∧
     (mainStep gameName0 heap0 appMenu 10 0 false).2.menuStack = appMenu.menuStack) ∧
    ((mainStep gameName0 heap0 appStats 7000 0 false).2.currentState = UiState.idle ∧
     (mainStep gameName0 heap0 appStats 7000 0 false).2.menuStack = []) ∧
    ((mainStep gameName0 heap0 appStats 10 0 false).2.currentState = UiState.stats ∧
     (mainStep gameName0 heap0 appStats 10 0 false).2.menuStack = appStats.menuStack) := by
  refine ⟨?_, ?_, ?_, ?_⟩
  · exact ((idle_timeout_threshold gameName0 heap0 appMenu 7000 (by decide)).1 rfl).1
      (by decide)
  · exact ((idle_timeout_threshold gameName0 heap0 appMenu 10 (by decide)).1 rfl).2
      (by decide)
  · exact ((idle_timeout_threshold gameName0 heap0 appStats 7000 (by decide)).2 rfl).1
      (by decide)
  · exact ((idle_timeout_threshold gameName0 heap0 appStats 10 (by decide)).2 rfl).2
      (by decide)

/-- `clamp_stat` always lands in `[0, 100]`. -/
theorem clampStat_range (v : Int) :
    STAT_MIN ≤ clampStat v ∧ clampStat v ≤ STAT_MAX := by
  unfold clampStat clamp STAT_MIN STAT_MAX
  split_ifs <;> omega

/-- One decay tick keeps every gauge in range. -/
theorem decayStats_range (s : Stats) (amount : Int) (hs : StatsInRange s) :
    StatsInRange (decayStats s amount) := by
  intro k
  simp only [decayStats, STAT_KEYS, List.foldl]
  split_ifs <;> first | exact clampStat_range _ | exact hs k

/-- **C9.** With every gauge in `[0, 100]`, any action-driven
adjustment or assignment keeps every gauge in `[0, 100]`, and so does
any number of repeated decay ticks: no gauge ever drops below 0 or
climbs above 100. -/
theorem stat_gauges_clamped (s : Stats) (hs : StatsInRange s)
    (name : String) (d v amount : Int) (n : Nat) :
    StatsInRange (adjustStat s name d) ∧
    StatsInRange (setStat s name v) ∧
    StatsInRange (decayRepeat n s amount) := by
  refine ⟨?_, ?_, ?_⟩
  · intro k
    unfold adjustStat
    split_ifs
    · exact clampStat_range _
    · exact hs k
  · intro k
    unfold setStat
    split_ifs
    · exact clampStat_range _
    · exact hs k
  · induction n generalizing s with
    | zero => exact hs
    | succ n ih => exact ih (decayStats s amount) (decayStats_range s amount hs)

/-- Witness for `stat_gauges_clamped`: the initial stat dict of
`main.py`, a +50 Energy adjustment, a direct write of 250, and 200
decay ticks. -/
theorem stat_gauges_clamped_witness :
    StatsInRange (adjustStat initialStats "Energy" 50) ∧
    StatsInRange (setStat initialStats "Energy" 250) ∧
    StatsInRange (decayRepeat 200 initialStats 1) := by
  refine stat_gauges_clamped initialStats ?_ "Energy" 50 250 1 200
  intro k
  unfold initialStats STAT_MIN STAT_MAX
  split_ifs <;> omega

end PetCore
